import Mathlib

/-!
Shallow embedding of the AI-Car-Catalog-DB extraction pipeline, progress
model, catalog store and gateway guards, translated from the TypeScript
sources (src/types.ts, src/db.ts, the Firestore store, the web fetch
helper, src/services/geminiService.ts and the App orchestrator).
External capabilities (the AI model, the browser URL parser, the fetch
transport, the persistence medium) are passed in as already-settled
outcomes, mirroring the promise results the code awaits.
-/

namespace AICarCatalog

/-- Pipeline stage names, from the ProgressStep union type of the App
component (the part_004 orchestrator). -/
inductive ProgressStep
  | idle
  | reading
  | converting
  | extractingText
  | extractingJson
  | saving
  | done
  | error
deriving DecidableEq, BEq, Repr

/-- ProgressState of the App component: current step, optional error
message, and the set of completed steps.  A JavaScript Set is
insertion-ordered, so it is embedded as a duplicate-free list. -/
structure ProgressState where
  step : ProgressStep
  error : Option String
  completedSteps : List ProgressStep
deriving DecidableEq, Repr

/-- JavaScript Set.add: appends the element if it is not present. -/
def setAdd (x : ProgressStep) (l : List ProgressStep) : List ProgressStep :=
  if l.contains x then l else l ++ [x]

/-- CarSpecification from src/types.ts: every data field is nullable. -/
structure CarSpecification where
  id : String
  manufacturer : Option String
  modelName : Option String
  grade : Option String
  price : Option Int
  issueDate : Option String
  engineType : Option String
  displacement : Option String
  maxPower : Option String
  maxTorque : Option String
  fuelEconomy : Option String
  options : Option (List String)
deriving DecidableEq, Repr

/-- CatalogRecord from src/types.ts.  Dates are embedded as Nat
timestamps; the summary and images fields are optional exactly as in the
TypeScript interface. -/
structure CatalogRecord where
  id : Nat
  fileName : String
  createdAt : Nat
  extractedData : List CarSpecification
  rawJson : String
  rawText : String
  summary : Option String
  images : Option (List String)
deriving DecidableEq, Repr

/-- A catalog record before the store has assigned its identifier
(the Omit CatalogRecord id type used by saveCatalog). -/
structure NewCatalog where
  fileName : String
  createdAt : Nat
  extractedData : List CarSpecification
  rawJson : String
  rawText : String
  summary : Option String
  images : Option (List String)
deriving DecidableEq, Repr

def NewCatalog.withId (c : NewCatalog) (id : Nat) : CatalogRecord :=
  ⟨id, c.fileName, c.createdAt, c.extractedData, c.rawJson, c.rawText, c.summary, c.images⟩

/-- The catalog store (src/db.ts): an IndexedDB object store with an
auto-increment key.  Records are kept in insertion (creation) order and
nextId is the auto-increment counter. -/
structure CatalogStore where
  nextId : Nat
  records : List CatalogRecord
deriving DecidableEq, Repr

/-- IndexedDB auto-increment keys start at 1 on a fresh store. -/
def initialStore : CatalogStore := ⟨1, []⟩

/-- saveCatalog from src/db.ts: store.add assigns the auto-generated key
and the resolved value is the record together with that key. -/
def saveCatalog (store : CatalogStore) (c : NewCatalog) : CatalogRecord × CatalogStore :=
  let rec0 := c.withId store.nextId
  (rec0, ⟨store.nextId + 1, store.records ++ [rec0]⟩)

inductive DeleteResult
  | success
  | notFoundError
deriving DecidableEq, Repr

/-- deleteCatalog from src/db.ts.  The underlying IDBObjectStore.delete
request fires onsuccess whether or not a record with the key exists
(the same holds for the Firestore deleteDoc variant), so the call
resolves successfully in either case, removing the record if present. -/
def deleteCatalog (store : CatalogStore) (id : Nat) : DeleteResult × CatalogStore :=
  (DeleteResult.success, ⟨store.nextId, store.records.filter (fun r => !(r.id == id))⟩)

/-- getAllCatalogs from src/db.ts: getAll returns the stored records and
the code sorts them with the comparator (a, b) => b.id - a.id, i.e. by
identifier descending (Array.prototype.sort is stable). -/
def getAllCatalogs (store : CatalogStore) : List CatalogRecord :=
  store.records.insertionSort (fun a b => b.id ≤ a.id)

/-- updateCatalog from the Firestore store module: updateDoc writes every
supplied field of the document keyed by the record's identifier (a full
replace, since all fields are supplied) and rejects when the target
document does not exist. -/
def updateCatalog (store : CatalogStore) (c : CatalogRecord) : Except String CatalogStore :=
  if store.records.any (fun r => r.id == c.id) then
    Except.ok ⟨store.nextId, store.records.map (fun r => if r.id == c.id then c else r)⟩
  else
    Except.error "not-found"

/-- Well-formedness of a store reachable through the operations:
identifiers are strictly increasing in creation order and below the
auto-increment counter. -/
def StoreWF (store : CatalogStore) : Prop :=
  store.records.Pairwise (fun a b => a.id < b.id) ∧ ∀ r ∈ store.records, r.id < store.nextId

/-- ECMAScript whitespace for String.prototype.trim: the WhiteSpace and
LineTerminator code points. -/
def isJsWhitespace (c : Char) : Bool :=
  c.toNat == 0x9 || c.toNat == 0xa || c.toNat == 0xb || c.toNat == 0xc ||
  c.toNat == 0xd || c.toNat == 0x20 || c.toNat == 0xa0 || c.toNat == 0x1680 ||
  (0x2000 ≤ c.toNat && c.toNat ≤ 0x200a) || c.toNat == 0x2028 || c.toNat == 0x2029 ||
  c.toNat == 0x202f || c.toNat == 0x205f || c.toNat == 0x3000 || c.toNat == 0xfeff

/-- JavaScript String.prototype.trim: strips leading and trailing
whitespace. -/
def jsTrim (s : String) : String :=
  ⟨((s.data.dropWhile isJsWhitespace).reverse.dropWhile isJsWhitespace).reverse⟩

/-- Decides whether pat occurs as a contiguous sublist. -/
def hasSubList (pat : List Char) : List Char → Bool
  | [] => pat.isEmpty
  | a :: l => pat.isPrefixOf (a :: l) || hasSubList pat l

/-- JavaScript String.prototype.includes. -/
def containsSub (s pat : String) : Bool :=
  hasSubList pat.data s.data

/-- handleGeminiError from src/services/geminiService.ts: maps a raw
error (some message, or none for a non-Error throw) and a context label
to the user-facing message.  The keyword tests are case-insensitive
because the code lowercases the message first. -/
def handleGeminiError (err : Option String) (context : String) : String :=
  match err with
  | some m =>
    let lm := m.toLower
    if containsSub lm "api key not valid" || containsSub lm "api_key_invalid" then
      "APIキーが無効か、設定されていません。環境変数を確認してください。"
    else if containsSub lm "rate limit" || containsSub lm "resource_exhausted" || containsSub lm "429" then
      "APIの利用回数制限を超えました。しばらく待ってから再度お試しください。(コンテキスト: " ++ context ++ ")"
    else if containsSub lm "billing" || containsSub lm "project_disabled" then
      "Google Cloudプロジェクトの課金設定に問題がある可能性があります。設定を確認してください。"
    else if containsSub lm "timed out" then
      "AIによる" ++ context ++ "がタイムアウトしました。カタログが大きすぎるか、複雑すぎる可能性があります。"
    else
      "AIによる" ++ context ++ "中にエラーが発生しました: " ++ m
  | none => "AIによる" ++ context ++ "中に不明なエラーが発生しました。"

/-- generateSummary from src/services/geminiService.ts.  The AI request
itself is an external capability: apiResult is the settled outcome of the
timed generateContent call (ok carries response.text, error the raw
failure message).  The Bool records whether the gateway call was issued.
On blank input the function returns a fixed placeholder before any call. -/
def generateSummary (text : String) (apiResult : Except String String) :
    Except String String × Bool :=
  if jsTrim text = "" then
    (Except.ok "要約対象のテキストがありません。", false)
  else
    match apiResult with
    | Except.ok r => (Except.ok (jsTrim r), true)
    | Except.error e => (Except.error (handleGeminiError (some e) "要約生成"), true)

/-- The fetch collaborator's settled response: HTTP ok flag, status and
the proxied body contents. -/
structure FetchResponse where
  ok : Bool
  status : Nat
  contents : String
deriving DecidableEq, Repr

/-- fetchWebPageContent from the web scraper service.  urlValid is the
outcome of the browser's new URL(url) parse (an external capability);
when it fails the function throws the validation message inside the try
block before any fetch is issued.  response is the settled outcome of the
proxied fetch (error carries the transport failure message).  The Bool
records whether a fetch was issued. -/
def fetchWebPageContent (urlValid : Bool) (response : Except String FetchResponse) :
    Except String String × Bool :=
  if urlValid then
    match response with
    | Except.error msg =>
      (Except.error ("Webページの取得に失敗しました: " ++ msg), true)
    | Except.ok r =>
      if r.ok then
        (Except.ok r.contents, true)
      else
        (Except.error ("Webページの取得に失敗しました: HTTPエラー: " ++ toString r.status), true)
  else
    (Except.error "無効なURLです。正しいURLを入力してください。", false)

/-- The raw text kept after the text branch settles: the fulfilled value,
or the initial empty string when the branch rejected. -/
def settledText (textResult : Except String String) : String :=
  match textResult with
  | Except.ok t => t
  | Except.error _ => ""

/-- The structured data kept after the json branch settles: the fulfilled
(parsedData, rawJson) pair, or the initial ([], empty) when rejected. -/
def settledJson (jsonResult : Except String (List CarSpecification × String)) :
    List CarSpecification × String :=
  match jsonResult with
  | Except.ok v => v
  | Except.error _ => ([], "")

/-- The apiErrors list accumulated after the allSettled join: the text
branch's failure message (if any) followed by the json branch's. -/
def branchErrors (textResult : Except String String)
    (jsonResult : Except String (List CarSpecification × String)) : List String :=
  (match textResult with
   | Except.ok _ => []
   | Except.error e => [e]) ++
  (match jsonResult with
   | Except.ok _ => []
   | Except.error e => [e])

/-- The observable outcome of one orchestrator invocation: the successive
progress states it sets, the store afterwards, whether a chat session was
seeded, whether a store save was attempted, and the record it saved. -/
structure RunResult where
  trace : List ProgressState
  store : CatalogStore
  chatCreated : Bool
  saveAttempted : Bool
  saved : Option CatalogRecord
deriving Repr

def RunResult.finalStep (r : RunResult) : Option ProgressStep :=
  r.trace.getLast?.map ProgressState.step

def RunResult.finalError (r : RunResult) : Option (Option String) :=
  r.trace.getLast?.map ProgressState.error

/-- handleExtractData from the App orchestrator.  images and fileName are
the call arguments; textResult and jsonResult are the settled outcomes of
the two concurrently dispatched extraction branches (Promise.allSettled);
summaryResult is the settled outcome of the generateSummary call, which
is only consulted when the kept raw text is non-empty; dbFail injects a
saveCatalog rejection (some message) or lets it succeed (none); prev is
the progress state current at entry and store the catalog store. -/
def handleExtractData (images : List String) (fileName : String) (createdAt : Nat)
    (textResult : Except String String)
    (jsonResult : Except String (List CarSpecification × String))
    (summaryResult : Except String String)
    (dbFail : Option String)
    (prev : ProgressState) (store : CatalogStore) : RunResult :=
  if images = [] then
    { trace := [⟨ProgressStep.error, some "PDFから画像が抽出できませんでした。", []⟩],
      store := store, chatCreated := false, saveAttempted := false, saved := none }
  else
    let extractedRawText := settledText textResult
    let jsonData := settledJson jsonResult
    let chatCreated :=
      match jsonResult with
      | Except.ok v => !v.1.isEmpty
      | Except.error _ => false
    let apiErrors := branchErrors textResult jsonResult
    if apiErrors = [] then
      let summary : String :=
        if extractedRawText = "" then ""
        else
          match summaryResult with
          | Except.ok s => s
          | Except.error _ => ""
      let s1 : ProgressState :=
        ⟨ProgressStep.saving, prev.error,
          setAdd ProgressStep.extractingJson (setAdd ProgressStep.extractingText prev.completedSteps)⟩
      if extractedRawText = "" ∧ jsonData.1 = [] then
        { trace := [s1, ⟨ProgressStep.error, some "AIはカタログから有効なデータを抽出できませんでした。", []⟩],
          store := store, chatCreated := chatCreated, saveAttempted := false, saved := none }
      else
        match dbFail with
        | some msg =>
          { trace := [s1, ⟨ProgressStep.error, some msg, s1.completedSteps⟩],
            store := store, chatCreated := chatCreated, saveAttempted := true, saved := none }
        | none =>
          let newData : NewCatalog :=
            ⟨fileName, createdAt, jsonData.1, jsonData.2, extractedRawText, some summary, some images⟩
          let saveRes := saveCatalog store newData
          { trace := [s1, ⟨ProgressStep.done, s1.error, setAdd ProgressStep.saving s1.completedSteps⟩],
            store := saveRes.2, chatCreated := chatCreated, saveAttempted := true,
            saved := some saveRes.1 }
    else
      { trace := [⟨ProgressStep.error, some (String.intercalate "\n" apiErrors), prev.completedSteps⟩],
        store := store, chatCreated := chatCreated, saveAttempted := false, saved := none }

/-- handleFileChange from the App orchestrator (PDF path).  readOk is
whether the FileReader produced a result; the PDF page rendering is an
external capability producing images.  The remaining parameters feed
handleExtractData. -/
def handleFileChange (readOk : Bool) (images : List String) (fileName : String)
    (createdAt : Nat)
    (textResult : Except String String)
    (jsonResult : Except String (List CarSpecification × String))
    (summaryResult : Except String String)
    (dbFail : Option String)
    (store : CatalogStore) : RunResult :=
  let s0 : ProgressState := ⟨ProgressStep.reading, none, []⟩
  match readOk with
  | true =>
    let s1 : ProgressState := ⟨ProgressStep.converting, s0.error, setAdd ProgressStep.reading s0.completedSteps⟩
    let s2 : ProgressState := ⟨ProgressStep.extractingText, s1.error, setAdd ProgressStep.converting s1.completedSteps⟩
    let r := handleExtractData images fileName createdAt textResult jsonResult summaryResult dbFail s2 store
    { r with trace := s0 :: s1 :: s2 :: r.trace }
  | false =>
    { trace := [s0, ⟨ProgressStep.error, some "PDFファイルの読み込みに失敗しました。", []⟩],
      store := store, chatCreated := false, saveAttempted := false, saved := none }

/-- The outcome of one URL-path run: progress states, the store, whether
the proxied fetch was issued, whether a chat session was seeded, and the
saved record. -/
structure UrlRunResult where
  trace : List ProgressState
  store : CatalogStore
  fetchIssued : Bool
  chatCreated : Bool
  saved : Option CatalogRecord
deriving Repr

/-- handleUrlSubmit from the App orchestrator (URL path).  urlValid and
response feed fetchWebPageContent; extractResult is the settled outcome
of extractCarDataFromWebPage as (parsedData, rawJson, rawText);
summaryResult is consulted only when rawText is non-empty; hostname is
new URL(url).hostname.  Every catch in this path resets completedSteps
to the empty set. -/
def handleUrlSubmit (urlValid : Bool) (response : Except String FetchResponse)
    (extractResult : Except String (List CarSpecification × String × String))
    (summaryResult : Except String String)
    (hostname : String) (createdAt : Nat)
    (dbFail : Option String) (store : CatalogStore) : UrlRunResult :=
  let s0 : ProgressState := ⟨ProgressStep.reading, none, []⟩
  let fetchRes := fetchWebPageContent urlValid response
  match fetchRes.1 with
  | Except.error msg =>
    { trace := [s0, ⟨ProgressStep.error, some msg, []⟩],
      store := store, fetchIssued := fetchRes.2, chatCreated := false, saved := none }
  | Except.ok _html =>
    let s1 : ProgressState := ⟨ProgressStep.extractingJson, s0.error, setAdd ProgressStep.reading s0.completedSteps⟩
    match extractResult with
    | Except.error msg =>
      { trace := [s0, s1, ⟨ProgressStep.error, some msg, []⟩],
        store := store, fetchIssued := true, chatCreated := false, saved := none }
    | Except.ok v =>
      let parsedData := v.1
      let rawJson := v.2.1
      let rawText := v.2.2
      let chatCreated := !parsedData.isEmpty
      let s2 : ProgressState := ⟨ProgressStep.saving, s1.error, setAdd ProgressStep.extractingJson s1.completedSteps⟩
      let summary : String :=
        if rawText = "" then ""
        else
          match summaryResult with
          | Except.ok s => s
          | Except.error _ => ""
      match dbFail with
      | some msg =>
        { trace := [s0, s1, s2, ⟨ProgressStep.error, some msg, []⟩],
          store := store, fetchIssued := true, chatCreated := chatCreated, saved := none }
      | none =>
        let newData : NewCatalog :=
          ⟨hostname, createdAt, parsedData, rawJson, rawText, some summary, some []⟩
        let saveRes := saveCatalog store newData
        { trace := [s0, s1, s2, ⟨ProgressStep.done, s2.error, setAdd ProgressStep.saving s2.completedSteps⟩],
          store := saveRes.2, fetchIssued := true, chatCreated := chatCreated,
          saved := some saveRes.1 }

/-- The outcome of handleSelectCatalog: the store afterwards, the record
shown to the user, whether a lazy summary generation was attempted, and
whether a chat session was seeded. -/
structure SelectResult where
  store : CatalogStore
  selected : CatalogRecord
  summaryAttempted : Bool
  chatCreated : Bool
deriving Repr

/-- handleSelectCatalog from the App orchestrator: when the selected
record's summary is JavaScript-falsy (absent or the empty string) and its
rawText is truthy (non-empty), a summary is generated on demand; on
success the updated record is written back with updateCatalog.  A failure
of the generation or of the update is caught and the record is shown
without a summary.  summaryResult is the settled generateSummary outcome. -/
def handleSelectCatalog (catalog : CatalogRecord)
    (summaryResult : Except String String) (store : CatalogStore) : SelectResult :=
  let chatCreated := !catalog.extractedData.isEmpty
  if (catalog.summary = none ∨ catalog.summary = some "") ∧ catalog.rawText ≠ "" then
    match summaryResult with
    | Except.ok s =>
      let updated : CatalogRecord := { catalog with summary := some s }
      match updateCatalog store updated with
      | Except.ok store1 =>
        { store := store1, selected := updated, summaryAttempted := true, chatCreated := chatCreated }
      | Except.error _ =>
        { store := store, selected := catalog, summaryAttempted := true, chatCreated := chatCreated }
    | Except.error _ =>
      { store := store, selected := catalog, summaryAttempted := true, chatCreated := chatCreated }
  else
    { store := store, selected := catalog, summaryAttempted := false, chatCreated := chatCreated }

/-- One progress set is contained in another. -/
def stepsSubset (a b : List ProgressStep) : Bool :=
  a.all (fun x => b.contains x)

/-- The completed-steps sets along a trace grow monotonically between
every pair of consecutive states. -/
def traceMonotone : List ProgressState → Bool
  | a :: b :: rest => stepsSubset a.completedSteps b.completedSteps && traceMonotone (b :: rest)
  | _ => true

/-- Monotone growth of completed-steps, demanded only of transitions
whose target state is not the error state. -/
def traceMonotoneExceptError : List ProgressState → Bool
  | a :: b :: rest =>
    (b.step == ProgressStep.error || stepsSubset a.completedSteps b.completedSteps) &&
      traceMonotoneExceptError (b :: rest)
  | _ => true


/-- A sample extracted row used by concrete witnesses. -/
def sampleSpec : CarSpecification :=
  ⟨"1001-0", some "トヨタ", some "プリウス", some "G", some 3000000,
    none, none, none, none, none, none, none⟩

/-- A stored record lacking a summary, with non-empty raw text. -/
def sampleRecord : CatalogRecord :=
  ⟨1, "catalog.pdf", 100, [sampleSpec], "[]", "Page1 Page2 Page3", none, some []⟩

/-- A store holding sampleRecord, with auto-increment counter 2. -/
def sampleStore : CatalogStore := ⟨2, [sampleRecord]⟩

/-- A store with two records created in order (ids 1 then 2). -/
def sampleStore2 : CatalogStore :=
  ⟨3, [⟨1, "a.pdf", 10, [], "", "t", none, none⟩, ⟨2, "b.pdf", 20, [], "", "t", none, none⟩]⟩

/-- The progress state the PDF path has reached when handleExtractData is
invoked: extractingText current, reading and converting completed. -/
def afterConvert : ProgressState :=
  ⟨ProgressStep.extractingText, none, [ProgressStep.reading, ProgressStep.converting]⟩
theorem storeWF_initial : StoreWF initialStore := by
  constructor
  · exact List.Pairwise.nil
  · intro r hr; cases hr

theorem storeWF_save (store : CatalogStore) (c : NewCatalog) (h : StoreWF store) :
    StoreWF (saveCatalog store c).2 := by
  obtain ⟨hp, hb⟩ := h
  constructor
  · refine List.pairwise_append.mpr ⟨hp, List.pairwise_singleton _ _, ?_⟩
    intro a ha b hb'
    simp only [List.mem_singleton] at hb'
    subst hb'
    exact hb a ha
  · intro r hr
    rcases List.mem_append.mp hr with h1 | h2
    · exact Nat.lt_succ_of_lt (hb r h1)
    · simp only [List.mem_singleton] at h2
      subst h2
      exact Nat.lt_succ_self _

theorem storeWF_delete (store : CatalogStore) (id : Nat) (h : StoreWF store) :
    StoreWF (deleteCatalog store id).2 := by
  obtain ⟨hp, hb⟩ := h
  constructor
  · exact List.Pairwise.filter _ hp
  · intro r hr
    exact hb r (List.mem_of_mem_filter hr)

theorem orderedInsert_eq_append (a : CatalogRecord) (l : List CatalogRecord)
    (h : ∀ b ∈ l, a.id < b.id) :
    l.orderedInsert (fun x y => y.id ≤ x.id) a = l ++ [a] := by
  induction l with
  | nil => rfl
  | cons b t ih =>
    have hb : ¬ (b.id ≤ a.id) := Nat.not_le.mpr (h b (List.mem_cons_self b t))
    simp only [List.orderedInsert, if_neg hb]
    rw [ih (fun c hc => h c (List.mem_cons_of_mem b hc))]
    rfl

theorem insertionSort_eq_reverse (l : List CatalogRecord)
    (h : l.Pairwise (fun a b => a.id < b.id)) :
    l.insertionSort (fun a b => b.id ≤ a.id) = l.reverse := by
  induction l with
  | nil => rfl
  | cons a t ih =>
    rw [List.pairwise_cons] at h
    show (List.insertionSort _ t).orderedInsert (fun x y => y.id ≤ x.id) a = (a :: t).reverse
    rw [ih h.2]
    rw [orderedInsert_eq_append a t.reverse (fun b hb => h.1 b (List.mem_reverse.mp hb))]
    simp


/-- C4 counterexample: on the code, deleting the identifier 99, which is
absent from the store, resolves with success and not with a
NotFoundError, refuting the claim that a NotFoundError is produced. -/
theorem delete_missing_id_silent_success_cex :
    (deleteCatalog initialStore 99).1 = DeleteResult.success ∧
    (deleteCatalog initialStore 99).1 ≠ DeleteResult.notFoundError ∧
    (deleteCatalog initialStore 99).2 = initialStore := by
  decide

/-- C4 (amended): for every identifier absent from the store, delete
resolves successfully (a silent success, no NotFoundError), leaves the
store unchanged, and does not crash the caller. -/
theorem delete_missing_id_silent_success (store : CatalogStore) (id : Nat)
    (h : ∀ r ∈ store.records, r.id ≠ id) :
    (deleteCatalog store id).1 = DeleteResult.success ∧
    (deleteCatalog store id).2 = store := by
  refine ⟨rfl, ?_⟩
  unfold deleteCatalog
  have hf : store.records.filter (fun r => !(r.id == id)) = store.records := by
    apply List.filter_eq_self.mpr
    intro a ha
    simp [h a ha]
  rw [hf]

/-- C4 witness: the amended delete behaviour at the concrete identifier 5
absent from sampleStore. -/
theorem delete_missing_id_silent_success_witness :
    (∀ r ∈ sampleStore.records, r.id ≠ 5) ∧
    ((deleteCatalog sampleStore 5).1 = DeleteResult.success ∧
      (deleteCatalog sampleStore 5).2 = sampleStore) :=
  ⟨by decide, delete_missing_id_silent_success sampleStore 5 (by decide)⟩

/-- C9: for every well-formed store (identifiers strictly increasing in
creation order and below the counter, as the operations guarantee),
getAllCatalogs returns all stored records in reverse creation order, i.e.
newest first; and whenever creation timestamps are monotone in creation
order, the output is ordered by creation time descending. -/
theorem listAll_newest_first (store : CatalogStore) (h : StoreWF store) :
    getAllCatalogs store = store.records.reverse ∧
    (store.records.Pairwise (fun a b => a.createdAt ≤ b.createdAt) →
      (getAllCatalogs store).Pairwise (fun a b => b.createdAt ≤ a.createdAt)) := by
  have h1 : getAllCatalogs store = store.records.reverse :=
    insertionSort_eq_reverse _ h.1
  refine ⟨h1, ?_⟩
  intro hc
  rw [h1]
  exact List.pairwise_reverse.mpr hc

/-- C9 witness: the newest-first ordering at the concrete two-record
store sampleStore2. -/
theorem listAll_newest_first_witness :
    StoreWF sampleStore2 ∧
    (getAllCatalogs sampleStore2 = sampleStore2.records.reverse ∧
      (sampleStore2.records.Pairwise (fun a b => a.createdAt ≤ b.createdAt) →
        (getAllCatalogs sampleStore2).Pairwise (fun a b => b.createdAt ≤ a.createdAt))) :=
  ⟨by unfold StoreWF; decide, listAll_newest_first sampleStore2 (by unfold StoreWF; decide)⟩

/-- C10: for every input consisting only of whitespace (including the
empty string), generateSummary returns the fixed placeholder without
issuing a gateway call, and never fails on such input. -/
theorem generateSummary_blank_input_placeholder (text : String)
    (apiResult : Except String String)
    (h : ∀ c ∈ text.data, isJsWhitespace c = true) :
    generateSummary text apiResult = (Except.ok "要約対象のテキストがありません。", false) := by
  have hd : ∀ (l : List Char), (∀ c ∈ l, isJsWhitespace c = true) →
      l.dropWhile isJsWhitespace = [] := by
    intro l
    induction l with
    | nil => intro _; rfl
    | cons a t ih =>
      intro hl
      have ha := hl a (List.mem_cons_self a t)
      rw [List.dropWhile_cons_of_pos ha]
      exact ih (fun c hc => hl c (List.mem_cons_of_mem a hc))
  have h2 : jsTrim text = "" := by
    unfold jsTrim
    rw [hd _ h]
    rfl
  unfold generateSummary
  rw [if_pos h2]

/-- C10 witness: the placeholder behaviour at a concrete whitespace-only
input, with a gateway outcome that would have failed had it been used. -/
theorem generateSummary_blank_input_placeholder_witness :
    (∀ c ∈ ("  \n\t " : String).data, isJsWhitespace c = true) ∧
    generateSummary "  \n\t " (Except.error "boom") =
      (Except.ok "要約対象のテキストがありません。", false) :=
  ⟨by decide, generateSummary_blank_input_placeholder "  \n\t " (Except.error "boom") (by decide)⟩

/-- C7: when the submitted string does not parse as a URL, the URL
pipeline run fails immediately with the validation error, no fetch is
issued, the store is unchanged and nothing is saved. -/
theorem invalid_url_fails_fast_no_fetch (response : Except String FetchResponse)
    (extractResult : Except String (List CarSpecification × String × String))
    (summaryResult : Except String String) (hostname : String) (createdAt : Nat)
    (dbFail : Option String) (store : CatalogStore) :
    (handleUrlSubmit false response extractResult summaryResult hostname createdAt dbFail store).fetchIssued = false ∧
    (handleUrlSubmit false response extractResult summaryResult hostname createdAt dbFail store).trace =
      [⟨ProgressStep.reading, none, []⟩,
       ⟨ProgressStep.error, some "無効なURLです。正しいURLを入力してください。", []⟩] ∧
    (handleUrlSubmit false response extractResult summaryResult hostname createdAt dbFail store).store = store ∧
    (handleUrlSubmit false response extractResult summaryResult hostname createdAt dbFail store).saved = none :=
  ⟨rfl, rfl, rfl, rfl⟩

/-- C1 counterexample: a run in which exactly one branch succeeds (text
extraction fulfils with the three pages, structured extraction rejects)
does not create a record and does not end in done: handleExtractData
throws as soon as any branch failed, so the run ends in error with the
store unchanged, refuting the claim. -/
theorem one_branch_success_discarded_cex :
    (let r := handleExtractData ["img"] "catalog.pdf" 0
        (Except.ok "Page1 Page2 Page3") (Except.error "rate limited") (Except.ok "sum")
        none afterConvert initialStore
     r.finalStep = some ProgressStep.error ∧
     r.finalStep ≠ some ProgressStep.done ∧
     r.store = initialStore ∧
     r.saved = none ∧
     r.saveAttempted = false) := by
  decide

/-- C1 (amended): whenever at least one extraction branch fails (in
particular when exactly one succeeds), no record is created: the run ends
in error with the failing branches' messages joined by a newline, the
store is unchanged, no save is attempted, and the successful branch's
data is discarded. -/
theorem any_branch_failure_yields_error_and_no_record
    (images : List String) (fileName : String) (createdAt : Nat)
    (textResult : Except String String)
    (jsonResult : Except String (List CarSpecification × String))
    (summaryResult : Except String String) (dbFail : Option String)
    (prev : ProgressState) (store : CatalogStore)
    (himg : images ≠ []) (hfail : branchErrors textResult jsonResult ≠ []) :
    (let r := handleExtractData images fileName createdAt textResult jsonResult
        summaryResult dbFail prev store
     r.finalStep = some ProgressStep.error ∧
     r.finalError = some (some (String.intercalate "\n" (branchErrors textResult jsonResult))) ∧
     r.store = store ∧
     r.saveAttempted = false ∧
     r.saved = none) := by
  unfold handleExtractData
  rw [if_neg himg]
  simp only [if_neg hfail]
  refine ⟨?_, ?_, ?_, ?_, ?_⟩ <;> trivial

/-- C1 witness: the amended behaviour at the concrete one-failed-branch
input of the counterexample scenario. -/
theorem any_branch_failure_yields_error_and_no_record_witness :
    ((["img"] : List String) ≠ []) ∧
    (branchErrors (Except.ok "Page1 Page2 Page3") (Except.error "rate limited") ≠ []) ∧
    (let r := handleExtractData ["img"] "catalog.pdf" 0
        (Except.ok "Page1 Page2 Page3") (Except.error "rate limited") (Except.ok "sum")
        none afterConvert initialStore
     r.finalStep = some ProgressStep.error ∧
     r.finalError = some (some (String.intercalate "\n"
       (branchErrors (Except.ok "Page1 Page2 Page3") (Except.error "rate limited")))) ∧
     r.store = initialStore ∧
     r.saveAttempted = false ∧
     r.saved = none) :=
  ⟨by decide, by decide,
    any_branch_failure_yields_error_and_no_record ["img"] "catalog.pdf" 0
      (Except.ok "Page1 Page2 Page3") (Except.error "rate limited") (Except.ok "sum")
      none afterConvert initialStore (by decide) (by decide)⟩

/-- C2: when both extraction branches fail, the run ends in error with
the two failure messages concatenated by a newline separator, no save is
attempted, no record is created and the store is unchanged. -/
theorem both_branches_fail_error_concat_no_record
    (images : List String) (fileName : String) (createdAt : Nat)
    (e1 e2 : String) (summaryResult : Except String String) (dbFail : Option String)
    (prev : ProgressState) (store : CatalogStore)
    (himg : images ≠ []) :
    (let r := handleExtractData images fileName createdAt
        (Except.error e1) (Except.error e2) summaryResult dbFail prev store
     r.finalStep = some ProgressStep.error ∧
     r.finalError = some (some (e1 ++ "\n" ++ e2)) ∧
     r.trace = [⟨ProgressStep.error, some (e1 ++ "\n" ++ e2), prev.completedSteps⟩] ∧
     r.store = store ∧
     r.saveAttempted = false ∧
     r.saved = none) := by
  unfold handleExtractData
  rw [if_neg himg]
  exact ⟨rfl, rfl, rfl, rfl, rfl, rfl⟩

/-- C2 witness: the both-branches-fail behaviour at concrete messages. -/
theorem both_branches_fail_error_concat_no_record_witness :
    ((["img"] : List String) ≠ []) ∧
    (let r := handleExtractData ["img"] "catalog.pdf" 0
        (Except.error "text failed") (Except.error "json failed") (Except.ok "s")
        none afterConvert initialStore
     r.finalStep = some ProgressStep.error ∧
     r.finalError = some (some ("text failed" ++ "\n" ++ "json failed")) ∧
     r.trace = [⟨ProgressStep.error, some ("text failed" ++ "\n" ++ "json failed"),
       afterConvert.completedSteps⟩] ∧
     r.store = initialStore ∧
     r.saveAttempted = false ∧
     r.saved = none) :=
  ⟨by decide,
    both_branches_fail_error_concat_no_record ["img"] "catalog.pdf" 0
      "text failed" "json failed" (Except.ok "s") none afterConvert initialStore (by decide)⟩

/-- C5 counterexample: a run inside the claim's scope (after both
branches settle the kept raw text is empty and the kept structured list
is empty) in which the nothing-usable message is NOT produced: the text
branch rejected, so the code throws at the branch-failure check and the
error message is the branch failure message, refuting the claim's
message clause. -/
theorem empty_content_guard_message_cex :
    (let r := handleExtractData ["img"] "catalog.pdf" 0
        (Except.error "text failed") (Except.ok ([], "")) (Except.ok "s")
        none afterConvert initialStore
     settledText (Except.error "text failed") = "" ∧
     (settledJson (Except.ok (([], "") : List CarSpecification × String))).1 = [] ∧
     r.finalStep = some ProgressStep.error ∧
     r.finalError = some (some "text failed") ∧
     r.finalError ≠ some (some "AIはカタログから有効なデータを抽出できませんでした。") ∧
     r.saveAttempted = false ∧
     r.store = initialStore) := by
  decide

/-- C5 (amended): when, after both branches settle, the kept raw text is
empty and the kept structured list is empty, the run ends in error, no
save is attempted, no record is created and the store is unchanged; the
fixed nothing-usable message of the guard before saving is produced when
both branches fulfilled, while if a branch rejected the run errors
earlier with the branch failure messages joined by a newline instead. -/
theorem empty_content_guard_errors_without_save
    (images : List String) (fileName : String) (createdAt : Nat)
    (textResult : Except String String)
    (jsonResult : Except String (List CarSpecification × String))
    (summaryResult : Except String String) (dbFail : Option String)
    (prev : ProgressState) (store : CatalogStore)
    (himg : images ≠ [])
    (htext : settledText textResult = "")
    (hjson : (settledJson jsonResult).1 = []) :
    (let r := handleExtractData images fileName createdAt textResult jsonResult
        summaryResult dbFail prev store
     r.finalStep = some ProgressStep.error ∧
     r.saveAttempted = false ∧
     r.store = store ∧
     r.saved = none ∧
     ((∃ t, textResult = Except.ok t) → (∃ v, jsonResult = Except.ok v) →
       r.finalError = some (some "AIはカタログから有効なデータを抽出できませんでした。")) ∧
     (branchErrors textResult jsonResult ≠ [] →
       r.finalError = some (some (String.intercalate "\n" (branchErrors textResult jsonResult))))) := by
  unfold handleExtractData
  rw [if_neg himg]
  cases textResult with
  | error e1 =>
    cases jsonResult with
    | error e2 =>
      refine ⟨rfl, rfl, rfl, rfl, ?_, fun _ => rfl⟩
      rintro ⟨t, ht⟩
      exact absurd ht (by simp)
    | ok v =>
      refine ⟨rfl, rfl, rfl, rfl, ?_, fun _ => rfl⟩
      rintro ⟨t, ht⟩
      exact absurd ht (by simp)
  | ok t =>
    cases jsonResult with
    | error e2 =>
      refine ⟨rfl, rfl, rfl, rfl, ?_, fun _ => rfl⟩
      rintro _ ⟨v, hv⟩
      exact absurd hv (by simp)
    | ok v =>
      simp only [settledText] at htext
      simp only [settledJson] at hjson
      have hguard : settledText (Except.ok t) = "" ∧ (settledJson (Except.ok (α := List CarSpecification × String) v)).1 = [] :=
        ⟨htext, hjson⟩
      simp only [branchErrors, List.nil_append, if_pos rfl, if_pos hguard]
      refine ⟨rfl, rfl, rfl, rfl, fun _ _ => rfl, ?_⟩
      intro h
      simp at h

/-- C5 witness: the guard at a concrete run in which both branches
fulfil with no content at all. -/
theorem empty_content_guard_errors_without_save_witness :
    ((["img"] : List String) ≠ []) ∧
    settledText (Except.ok "") = "" ∧
    (settledJson (Except.ok (([], "") : List CarSpecification × String))).1 = [] ∧
    (let r := handleExtractData ["img"] "catalog.pdf" 0
        (Except.ok "") (Except.ok ([], "")) (Except.ok "s") none afterConvert initialStore
     r.finalStep = some ProgressStep.error ∧
     r.saveAttempted = false ∧
     r.store = initialStore ∧
     r.saved = none ∧
     ((∃ t, (Except.ok "" : Except String String) = Except.ok t) →
       (∃ v, (Except.ok ([], "") : Except String (List CarSpecification × String)) = Except.ok v) →
       r.finalError = some (some "AIはカタログから有効なデータを抽出できませんでした。")) ∧
     (branchErrors (Except.ok "") (Except.ok (([], "") : List CarSpecification × String)) ≠ [] →
       r.finalError = some (some (String.intercalate "\n"
         (branchErrors (Except.ok "") (Except.ok (([], "") : List CarSpecification × String))))))) :=
  ⟨by decide, rfl, rfl,
    empty_content_guard_errors_without_save ["img"] "catalog.pdf" 0
      (Except.ok "") (Except.ok ([], "")) (Except.ok "s") none afterConvert initialStore
      (by decide) rfl rfl⟩

/-- C6: when both branches fulfil, the text is non-empty and the summary
generation fails, the failure is swallowed: the run still saves the
assembled record (with its summary field the empty string) and ends in
done. -/
theorem summary_failure_nonfatal_run_completes
    (images : List String) (fileName : String) (createdAt : Nat)
    (t : String) (ps : List CarSpecification) (rj : String) (e : String)
    (prev : ProgressState) (store : CatalogStore)
    (himg : images ≠ []) (ht : t ≠ "") :
    (let r := handleExtractData images fileName createdAt
        (Except.ok t) (Except.ok (ps, rj)) (Except.error e) none prev store
     r.finalStep = some ProgressStep.done ∧
     r.saveAttempted = true ∧
     r.saved = some ⟨store.nextId, fileName, createdAt, ps, rj, t, some "", some images⟩ ∧
     r.store.records = store.records ++
       [⟨store.nextId, fileName, createdAt, ps, rj, t, some "", some images⟩] ∧
     r.store.nextId = store.nextId + 1) := by
  have hne : ¬ (t = "" ∧ ps = []) := fun hc => ht hc.1
  simp only [handleExtractData, if_neg himg, if_neg hne, if_neg ht, settledText, settledJson]
  refine ⟨?_, ?_, ?_, ?_, ?_⟩ <;> trivial

/-- C6 witness: the swallowed summary failure at a concrete run. -/
theorem summary_failure_nonfatal_run_completes_witness :
    ((["img"] : List String) ≠ []) ∧
    (("Page1 Page2 Page3" : String) ≠ "") ∧
    (let r := handleExtractData ["img"] "catalog.pdf" 0
        (Except.ok "Page1 Page2 Page3") (Except.ok ([sampleSpec], "[]"))
        (Except.error "summary failed") none afterConvert sampleStore
     r.finalStep = some ProgressStep.done ∧
     r.saveAttempted = true ∧
     r.saved = some ⟨sampleStore.nextId, "catalog.pdf", 0, [sampleSpec], "[]",
       "Page1 Page2 Page3", some "", some ["img"]⟩ ∧
     r.store.records = sampleStore.records ++
       [⟨sampleStore.nextId, "catalog.pdf", 0, [sampleSpec], "[]",
         "Page1 Page2 Page3", some "", some ["img"]⟩] ∧
     r.store.nextId = sampleStore.nextId + 1) :=
  ⟨by decide, by decide,
    summary_failure_nonfatal_run_completes ["img"] "catalog.pdf" 0
      "Page1 Page2 Page3" [sampleSpec] "[]" "summary failed" afterConvert sampleStore
      (by decide) (by decide)⟩

/-- C8: selecting a stored record whose summary is absent and whose raw
text is non-empty attempts lazy summary generation; on success the
store's copy is replaced by the same record with the summary populated:
the identifier and every other field are unchanged. -/
theorem lazy_summary_persisted_on_view
    (catalog : CatalogRecord) (s : String) (store : CatalogStore)
    (hmem : catalog ∈ store.records)
    (hsum : catalog.summary = none)
    (hraw : catalog.rawText ≠ "") :
    (let r := handleSelectCatalog catalog (Except.ok s) store
     r.summaryAttempted = true ∧
     r.selected = { catalog with summary := some s } ∧
     r.store.records = store.records.map
       (fun rec0 => if rec0.id == catalog.id then { catalog with summary := some s } else rec0) ∧
     ({ catalog with summary := some s } : CatalogRecord) ∈ r.store.records ∧
     ({ catalog with summary := some s } : CatalogRecord).id = catalog.id ∧
     ({ catalog with summary := some s } : CatalogRecord).fileName = catalog.fileName ∧
     ({ catalog with summary := some s } : CatalogRecord).createdAt = catalog.createdAt ∧
     ({ catalog with summary := some s } : CatalogRecord).extractedData = catalog.extractedData ∧
     ({ catalog with summary := some s } : CatalogRecord).rawJson = catalog.rawJson ∧
     ({ catalog with summary := some s } : CatalogRecord).rawText = catalog.rawText ∧
     ({ catalog with summary := some s } : CatalogRecord).images = catalog.images ∧
     ({ catalog with summary := some s } : CatalogRecord).summary = some s) := by
  unfold handleSelectCatalog
  rw [if_pos ⟨Or.inl hsum, hraw⟩]
  have hany : (store.records.any fun r => r.id == catalog.id) = true :=
    List.any_eq_true.mpr ⟨catalog, hmem, by simp⟩
  simp only [updateCatalog, if_pos hany]
  refine ⟨?_, ?_, ?_, ?_, ?_, ?_, ?_, ?_, ?_, ?_, ?_, ?_⟩ <;>
    first
      | trivial
      | exact List.mem_map.mpr ⟨catalog, hmem, by simp⟩

/-- C8 witness: lazy summary persistence at the concrete sampleStore. -/
theorem lazy_summary_persisted_on_view_witness :
    sampleRecord ∈ sampleStore.records ∧
    sampleRecord.summary = none ∧
    sampleRecord.rawText ≠ "" ∧
    (let r := handleSelectCatalog sampleRecord (Except.ok "要約テキスト") sampleStore
     r.summaryAttempted = true ∧
     r.selected = { sampleRecord with summary := some "要約テキスト" } ∧
     r.store.records = sampleStore.records.map
       (fun rec0 => if rec0.id == sampleRecord.id then { sampleRecord with summary := some "要約テキスト" } else rec0) ∧
     ({ sampleRecord with summary := some "要約テキスト" } : CatalogRecord) ∈ r.store.records ∧
     ({ sampleRecord with summary := some "要約テキスト" } : CatalogRecord).id = sampleRecord.id ∧
     ({ sampleRecord with summary := some "要約テキスト" } : CatalogRecord).fileName = sampleRecord.fileName ∧
     ({ sampleRecord with summary := some "要約テキスト" } : CatalogRecord).createdAt = sampleRecord.createdAt ∧
     ({ sampleRecord with summary := some "要約テキスト" } : CatalogRecord).extractedData = sampleRecord.extractedData ∧
     ({ sampleRecord with summary := some "要約テキスト" } : CatalogRecord).rawJson = sampleRecord.rawJson ∧
     ({ sampleRecord with summary := some "要約テキスト" } : CatalogRecord).rawText = sampleRecord.rawText ∧
     ({ sampleRecord with summary := some "要約テキスト" } : CatalogRecord).images = sampleRecord.images ∧
     ({ sampleRecord with summary := some "要約テキスト" } : CatalogRecord).summary = some "要約テキスト") :=
  ⟨by decide, by decide, by decide,
    lazy_summary_persisted_on_view sampleRecord "要約テキスト" sampleStore
      (by decide) (by decide) (by decide)⟩

/-- C3 counterexample: in the concrete run in which both branches fulfil
but produce no content, the orchestrator's nothing-usable guard resets
completedSteps to the empty set while entering error, after a state whose
completed set already held four stages, so the completed sets of
consecutive states of one run are not monotone: the claim fails. -/
theorem completedSteps_monotone_cex :
    traceMonotone (handleFileChange true ["i"] "a.pdf" 0 (Except.ok "")
      (Except.ok ([], "")) (Except.ok "") none initialStore).trace = false := by
  rfl

/-- C3 (amended): within one pipeline run — a PDF run (handleFileChange)
or a URL run (handleUrlSubmit) — the completed-steps set grows
monotonically across every pair of consecutive progress states whose
later state is not the error state; some transitions into error reset
the set to the empty set (so the reset is not confined to the start of
the next run). -/
theorem completedSteps_monotone_except_error_transitions
    (readOk : Bool) (images : List String) (fileName : String) (createdAt : Nat)
    (textResult : Except String String)
    (jsonResult : Except String (List CarSpecification × String))
    (summaryResult : Except String String) (dbFail : Option String)
    (store : CatalogStore)
    (urlValid : Bool) (response : Except String FetchResponse)
    (extractResult : Except String (List CarSpecification × String × String))
    (summaryResult2 : Except String String) (hostname : String) (createdAt2 : Nat)
    (dbFail2 : Option String) (store2 : CatalogStore) :
    traceMonotoneExceptError
      (handleFileChange readOk images fileName createdAt textResult jsonResult
        summaryResult dbFail store).trace = true ∧
    traceMonotoneExceptError
      (handleUrlSubmit urlValid response extractResult summaryResult2 hostname
        createdAt2 dbFail2 store2).trace = true := by
  constructor
  · cases readOk with
    | false => rfl
    | true =>
      simp only [handleFileChange, handleExtractData]
      split
      · rfl
      · split
        · split
          · rfl
          · split
            · rfl
            · rfl
        · rfl
  · cases urlValid with
    | false => rfl
    | true =>
      cases response with
      | error msg => rfl
      | ok r =>
        rcases r with ⟨rok, status, contents⟩
        cases rok with
        | false => rfl
        | true =>
          cases extractResult with
          | error m => rfl
          | ok v =>
            cases dbFail2 with
            | some m => rfl
            | none => rfl
